import Mathlib

/-!
Verification development for the SUI Trading DEX liquidity-pool wrapper
(src/suiLiquidityPool.js). The JavaScript class SuiLiquidityPool is embedded
shallowly: the mutable instance (provider endpoint, ids, pool cache) becomes
an explicit state record threaded through the operations, the asynchronous
external collaborators (RPC provider, signer, metadata and TVL helpers)
become an explicit environment record of oracles, and a thrown JS Error is
an Except value carrying the error message string. Prices and JS numbers
are modelled as rationals; in every spot where the source multiplies or
floors a number the concrete IEEE-double results coincide with the exact
rational results (the fee products 0.0005 * 1000000, 0.003 * 1000000 and
0.01 * 1000000 are all exact doubles), so no precision is lost by the
rational model on the values the claims are about.

The source file truncates at line 296, in the middle of addLiquidity:
sortTokens, priceToSqrtPriceX96, sqrtPriceX96ToPrice, getTokenMetadata,
calculatePoolTVL and the remainder of addLiquidity are not in src. Each
definition standing in for such missing code carries a doc comment starting
with the words Modelled from the spec.
-/

set_option autoImplicit false

deriving instance DecidableEq for Except

/-- Constant from src line 15. -/
def DEX_PACKAGE_ID : String :=
  "0x123456789abcdef123456789abcdef123456789abcdef123456789abcdef1234"

/-- Constant from src line 16. -/
def MODULE_NAME : String := "liquidity_pool"

/-- Constant from src line 17. -/
def LP_REGISTRY_ID : String :=
  "0xabcdef123456789abcdef123456789abcdef123456789abcdef123456789abcd"

/-- A fee tier record as stored in the FEE_TIERS object literal (src lines
18 to 22): a decimal fee fraction and a tick spacing. -/
structure FeeTier where
  fee : ℚ
  tickSpacing : Nat
deriving DecidableEq

/-- The outcome of the JavaScript property read FEE_TIERS[name]: the
record for one of the three own keys of the object literal; a value
inherited from Object.prototype for its standard member names, since
property access traverses the prototype chain and every inherited member
is a function or an object, hence truthy; or undefined. -/
inductive FeeTierLookup where
  | own (t : FeeTier)
  | inherited
  | undefined
deriving DecidableEq

/-- The standard Object.prototype member names visible on every plain
object literal through the prototype chain; reading any of them yields a
truthy function or object. -/
def objectProtoNames : List String :=
  ["constructor", "hasOwnProperty", "isPrototypeOf", "propertyIsEnumerable",
   "toLocaleString", "toString", "valueOf", "__proto__",
   "__defineGetter__", "__defineSetter__", "__lookupGetter__", "__lookupSetter__"]

/-- The FEE_TIERS object lookup of src lines 18 to 22: indexing the object
literal by a fee-tier name yields the record for the three declared own
keys, a truthy inherited member for the standard Object.prototype names,
and undefined for every other name. The decimal fees 0.0005, 0.003 and
0.01 are written as exact rationals; the ppm products computed in
createPool from these values are exact in IEEE double arithmetic as
well. -/
def FEE_TIERS (name : String) : FeeTierLookup :=
  if name = "LOW" then .own ⟨1/2000, 10⟩
  else if name = "MEDIUM" then .own ⟨3/1000, 60⟩
  else if name = "HIGH" then .own ⟨1/100, 200⟩
  else if name ∈ objectProtoNames then .inherited
  else .undefined

/-- The fee field read from a looked-up tier value (tier.fee): the record
field for an own key, undefined (none) for an inherited member. -/
def FeeTierLookup.feeField : FeeTierLookup → Option ℚ
  | .own t => some t.fee
  | _ => none

/-- The tickSpacing field read from a looked-up tier value
(tier.tickSpacing): the record field for an own key, undefined (none) for
an inherited member. -/
def FeeTierLookup.spacingField : FeeTierLookup → Option Nat
  | .own t => some t.tickSpacing
  | _ => none

/-- The RPC endpoint the constructor connects to (src lines 30 to 42):
one of the three fixed connections of the sui.js SDK, or a caller-supplied
URL. -/
inductive Endpoint where
  | devnet
  | testnet
  | mainnet
  | custom (url : String)
deriving DecidableEq

/-- The recognized configuration surface of the constructor. Fields the
constructor reads are network, rpcEndpoint, packageId, lpRegistryId and
moduleName (src lines 29 to 48); cacheTtlSeconds and cacheMaxEntries are
listed as recognized options by the documentation but no line of the
constructor reads them. -/
structure Config where
  network : Option String
  rpcEndpoint : Option String
  packageId : Option String
  lpRegistryId : Option String
  moduleName : Option String
  cacheTtlSeconds : Option Nat
  cacheMaxEntries : Option Nat
deriving DecidableEq

/-- JavaScript short-circuit a || b for a string option: undefined and the
empty string are falsy, every other string is truthy. -/
def jsStringOr (v : Option String) (d : String) : String :=
  match v with
  | none => d
  | some s => if s = "" then d else s

/-- The provider selection of the constructor (src lines 31 to 42): a switch
on the configured network name; devnet and testnet pick the fixed
connections, while mainnet and the default case fall through to
config.rpcEndpoint || mainnetConnection. -/
def mkProvider (cfg : Config) : Endpoint :=
  let network := jsStringOr cfg.network "mainnet"
  if network = "devnet" then .devnet
  else if network = "testnet" then .testnet
  else
    match cfg.rpcEndpoint with
    | none => .mainnet
    | some s => if s = "" then .mainnet else .custom s

/-- Token metadata as returned by the metadata collaborator. -/
structure TokenMetadata where
  symbol : String
  decimals : Nat
deriving DecidableEq

/-- The hydrated pool snapshot built by getPoolDetails (src lines 218 to
231) and stored in the pool cache. The price field holds the rational value
whose decimal rendering the source stores. -/
structure PoolDetails where
  id : String
  tokenX : String
  tokenY : String
  tokenXMetadata : TokenMetadata
  tokenYMetadata : TokenMetadata
  sqrtPriceX96 : Nat
  price : ℚ
  liquidity : Nat
  fee : ℚ
  tickSpacing : Int
  currentTick : Int
  tvl : ℚ
deriving DecidableEq

/-- The pool cache is a JS Map from pool id to PoolDetails: an
insertion-ordered association list with unique keys. -/
def PoolCache := List (String × PoolDetails)

instance : DecidableEq PoolCache := by
  unfold PoolCache
  infer_instance

/-- Map.has / Map.get combined: the entry stored under a key, if any. -/
def cacheLookup (c : PoolCache) (k : String) : Option PoolDetails :=
  match c with
  | [] => none
  | (k', v) :: t => if k' = k then some v else cacheLookup t k

/-- Map.set: replace the value under an existing key in place, or append a
new entry. -/
def cacheSet (c : PoolCache) (k : String) (v : PoolDetails) : PoolCache :=
  match c with
  | [] => [(k, v)]
  | (k', v') :: t => if k' = k then (k, v) :: t else (k', v') :: cacheSet t k v

/-- The mutable state of a SuiLiquidityPool instance: the fields assigned in
the constructor (src lines 29 to 48). -/
structure DexState where
  endpoint : Endpoint
  packageId : String
  lpRegistryId : String
  moduleName : String
  poolCache : PoolCache
deriving DecidableEq

/-- The constructor (src lines 29 to 48): picks the provider endpoint,
defaults the three ids, and initializes the pool cache to an empty Map.
No statement of the constructor reads cacheTtlSeconds or cacheMaxEntries. -/
def SuiLiquidityPool.construct (cfg : Config) : DexState :=
  { endpoint := mkProvider cfg
    packageId := jsStringOr cfg.packageId DEX_PACKAGE_ID
    lpRegistryId := jsStringOr cfg.lpRegistryId LP_REGISTRY_ID
    moduleName := jsStringOr cfg.moduleName MODULE_NAME
    poolCache := [] }

/-- Substring test on character lists: needle starts the haystack. -/
def listStarts : List Char → List Char → Bool
  | [], _ => true
  | _ :: _, [] => false
  | a :: as, b :: bs => a = b && listStarts as bs

/-- Substring test on character lists: needle occurs somewhere in the
haystack. -/
def hasSubstr : List Char → List Char → Bool
  | [], needle => needle.isEmpty
  | h :: t, needle => listStarts needle (h :: t) || hasSubstr t needle

/-- The JavaScript String.prototype.includes test used on event type names
(src line 132). -/
def strIncludes (s pat : String) : Bool := hasSubstr s.toList pat.toList

/-- Scan a character list for the first occurrence of a separator, returning
the characters before it and the characters after it. -/
def splitAtChar (sep : Char) : List Char → Option (List Char × List Char)
  | [] => none
  | c :: t =>
    if c = sep then some ([], t)
    else
      match splitAtChar sep t with
      | none => none
      | some (pre, post) => some (c :: pre, post)

/-- The regular-expression match of getPoolDetails on the pool type string
(src line 195, pattern matching a chevron-wrapped comma-separated pair):
takes the text after the first opening chevron, splits it at the first
comma, strips leading spaces from the second half, and cuts it at the first
closing chevron; both captured groups must be nonempty. -/
def matchTypePair (s : String) : Option (String × String) :=
  match splitAtChar '<' s.toList with
  | none => none
  | some (_, afterLt) =>
    match splitAtChar ',' afterLt with
    | none => none
    | some (g1, afterComma) =>
      match splitAtChar '>' (afterComma.dropWhile (fun c => c = ' ')) with
      | none => none
      | some (g2, _) =>
        if g1.isEmpty || g2.isEmpty then none
        else some (⟨g1⟩, ⟨g2⟩)

/-- A coin object returned by provider.getCoins. -/
structure Coin where
  coinObjectId : String
deriving DecidableEq

/-- The raw pool object returned by provider.getObject when the object
exists and has content (src lines 179 to 207): the Move type string and the
scalar fields getPoolDetails reads. The numeric fields are modelled as the
integers their on-chain strings parse to. -/
structure SuiObjectData where
  typeStr : String
  sqrt_price_x96 : Nat
  liquidity : Nat
  fee : Int
  tick_spacing : Int
  current_tick : Int
deriving DecidableEq

/-- An event in a transaction result; parsedJson.pool_id is the field
createPool reads from the PoolCreated event (src line 139). -/
structure SuiEvent where
  type : String
  pool_id : String
deriving DecidableEq

/-- The result of signer.signAndExecuteTransactionBlock (src lines 118 to
128): an effects status, an error text for the failure case, a digest and
the emitted events. -/
structure TxResult where
  statusSuccess : Bool
  statusError : String
  digest : String
  events : List SuiEvent
deriving DecidableEq

/-- An argument of a Move call in a transaction block. pureNaN is the JS
NaN a numeric operation on undefined produces; pureUndef is the JS
undefined value itself. -/
inductive CallArg where
  | obj (id : String)
  | pureStr (s : String)
  | pureNum (q : ℚ)
  | pureNaN
  | pureInt (i : Int)
  | pureNat (n : Nat)
  | pureUndef
deriving DecidableEq

/-- The operation descriptor a transaction block carries to the submission
collaborator: the Move call target, its arguments, its type arguments and
the gas payment set on the block. -/
structure MoveCall where
  target : String
  args : List CallArg
  typeArgs : List String
  gasPayment : List String
deriving DecidableEq

/-- The external collaborators of the wrapper, as oracles: the RPC provider
(getObject, getCoins), the signing submission path, the metadata helper and
the TVL helper (both missing from the truncated src), and the token amounts
the chain would actually consume for an add-liquidity call. A failing
Except value is a rejected promise carrying the JS error message. -/
structure Env where
  getObject : String → Except String (Option SuiObjectData)
  getCoins : String → Option String → Except String (List Coin)
  submit : MoveCall → Except String TxResult
  fetchMetadata : String → TokenMetadata
  calcTVL : String → String → String → Nat → Nat → Int → ℚ
  addActualX : Int
  addActualY : Int

/-- Error message of src line 81. -/
def invalidFeeTierMsg (ft : String) : String :=
  "Invalid fee tier: " ++ ft ++ ". Must be LOW, MEDIUM, or HIGH."

/-- Error message of src line 97. -/
def noGasMsg : String := "No gas objects available for transaction"

/-- Error message of src line 127. -/
def txFailedMsg (e : String) : String := "Transaction failed: " ++ e

/-- Error message of src line 136. -/
def poolEventNotFoundMsg : String :=
  "Pool creation event not found in transaction"

/-- Error message of src line 188. -/
def poolNotFoundMsg (pid : String) : String :=
  "Pool with ID " ++ pid ++ " not found"

/-- Error message of src line 197. -/
def invalidPoolTypeMsg (t : String) : String :=
  "Invalid pool type format: " ++ t

/-- The wrapping rethrow of getPoolDetails (src line 239): the caught
message behind a fixed operation text. -/
def fetchFailMsg (e : String) : String :=
  "Failed to fetch pool details: " ++ e

/-- Error message of src line 279. -/
def insufficientCoinsMsg : String :=
  "Insufficient coins for liquidity provision"

/-- Modelled from the spec: the InvalidTokenPair error of the missing
sortTokens helper (src truncates before its definition); the specification
has createPool fail with InvalidTokenPair when the two token types are
equal. -/
def invalidTokenPairMsg : String :=
  "InvalidTokenPair: token types must be distinct"

/-- Modelled from the spec: the InvalidInput error of the missing
priceToSqrtPriceX96 helper; the specification has the price conversion fail
with InvalidInput for a zero or negative price. -/
def invalidInputMsg : String := "InvalidInput: price must be positive"

/-- Modelled from the spec: the SlippageExceeded failure of the on-chain
add_liquidity execution; the specification has addLiquidity fail with
SlippageExceeded when an actual consumed amount falls below its minimum. -/
def slippageExceededMsg : String := "SlippageExceeded"

/-- Lexicographic order on character lists: the comparison JavaScript
applies to strings. -/
def charListLt : List Char → List Char → Bool
  | [], [] => false
  | [], _ :: _ => true
  | _ :: _, [] => false
  | a :: as, b :: bs =>
    if a < b then true else if b < a then false else charListLt as bs

/-- Modelled from the spec: sortTokens is missing from src (the file
truncates at line 296). The data model orders tokenX before tokenY under
the canonical lexicographic string ordering, and createPool fails with
InvalidTokenPair when the two token types are equal. -/
def sortTokens (a b : String) : Except String (String × String) :=
  if a = b then .error invalidTokenPairMsg
  else if charListLt a.toList b.toList then .ok (a, b) else .ok (b, a)

/-- Modelled from the spec: priceToSqrtPriceX96 is missing from src. The
specification fixes Q64.96 sqrt prices, integer square root rounding down,
conversions rounding toward zero, and an InvalidInput failure for a zero or
negative price; the greatest integer not exceeding sqrt of p times 2 to the
96 is the integer square root of the floor of p times 2 to the 192. -/
def priceToSqrtPriceX96 (p : ℚ) : Except String Nat :=
  if p ≤ 0 then .error invalidInputMsg
  else .ok (Nat.sqrt (⌊p * 2 ^ 192⌋).toNat)

/-- Modelled from the spec: sqrtPriceX96ToPrice is missing from src. A
Q64.96 sqrt price s denotes the decimal price s squared over 2 to the
192. -/
def sqrtPriceX96ToPrice (s : Nat) : ℚ := (s : ℚ) ^ 2 / 2 ^ 192

/-- The gap between the prices denoted by two adjacent representable sqrt
prices: one unit of the minimum representable precision at s. -/
def sqrtPriceUlp (s : Nat) : ℚ :=
  sqrtPriceX96ToPrice (s + 1) - sqrtPriceX96ToPrice s

/-- getPoolDetails (src lines 171 to 241). The cache is checked first and a
hit is returned as is, before any contact with the provider. On a miss the
pool object is fetched; a missing object, an unmatchable type string, or a
provider rejection all land in the catch block, which rethrows the caught
message behind the fixed operation text of src line 239. On success the
snapshot is built, stored in the cache, and returned. The getTokenMetadata
and calculatePoolTVL helpers are not in the truncated src and are supplied
by the environment as total oracles. -/
def getPoolDetails (env : Env) (st : DexState) (poolId : String) :
    Except String PoolDetails × DexState :=
  match cacheLookup st.poolCache poolId with
  | some d => (.ok d, st)
  | none =>
    match env.getObject poolId with
    | .error e => (.error (fetchFailMsg e), st)
    | .ok none => (.error (fetchFailMsg (poolNotFoundMsg poolId)), st)
    | .ok (some data) =>
      match matchTypePair data.typeStr with
      | none => (.error (fetchFailMsg (invalidPoolTypeMsg data.typeStr)), st)
      | some (tokenX, tokenY) =>
        let details : PoolDetails :=
          { id := poolId
            tokenX := tokenX
            tokenY := tokenY
            tokenXMetadata := env.fetchMetadata tokenX
            tokenYMetadata := env.fetchMetadata tokenY
            sqrtPriceX96 := data.sqrt_price_x96
            price := sqrtPriceX96ToPrice data.sqrt_price_x96
            liquidity := data.liquidity
            fee := (data.fee : ℚ) / 1000000
            tickSpacing := data.tick_spacing
            currentTick := data.current_tick
            tvl := env.calcTVL poolId tokenX tokenY data.liquidity
              data.sqrt_price_x96 data.current_tick }
        (.ok details, { st with poolCache := cacheSet st.poolCache poolId details })

/-- The parameters of createPool (src lines 66 to 72); absent fields of the
JS params object are none. The initial price is the rational value of the
decimal price string; the JS default string is the decimal one. -/
structure CreatePoolParams where
  coinTypeA : String
  coinTypeB : String
  feeTier : Option String
  signerAddr : String
  initialPrice : Option ℚ
deriving DecidableEq

/-- The success object createPool returns (src lines 144 to 156). The JS
object spreads poolDetails last, so the snapshot fields win on overlapping
keys; the distinct fields are kept here alongside the snapshot. The
tickSpacing and fee fields are the values read from the looked-up tier and
are undefined (none) when the fee-tier name resolved to an inherited
Object.prototype member. -/
structure CreatePoolOk where
  transactionDigest : String
  poolId : String
  tokenX : String
  tokenY : String
  feeTierName : String
  tickSpacing : Option Nat
  fee : Option ℚ
  sqrtPriceX96 : Nat
  details : PoolDetails
deriving DecidableEq

/-- The outcome of createPool: the try block either returns the success
object, or its catch block (src lines 157 to 163) converts any thrown error
into a plain returned value with success false and the error message. -/
inductive CreatePoolResult where
  | ok (r : CreatePoolOk)
  | err (msg : String)
deriving DecidableEq

/-- The body of createPool after the tier truthiness check of src line 80
has passed (src lines 84 to 156), parameterized by the fee and tickSpacing
values read from the looked-up tier: the record fields for an own key,
undefined (none) for a member inherited from Object.prototype. Converts the
initial price, fetches a gas coin, builds the create_pool Move call (the
fee argument is tier.fee * 1000000, which is NaN when tier.fee is
undefined), submits it, checks the effects status, finds the PoolCreated
event by substring match on the event type, reads pool_id from it,
hydrates the pool via getPoolDetails, and returns the success object;
every thrown error is caught and returned as an error value. -/
def createPoolBody (env : Env) (st : DexState) (p : CreatePoolParams)
    (tokenX tokenY feeTier : String)
    (feeField : Option ℚ) (spacingField : Option Nat) :
    CreatePoolResult × DexState :=
  match priceToSqrtPriceX96 (p.initialPrice.getD 1) with
  | .error e => (.err e, st)
  | .ok sqrtPriceX96 =>
    match env.getCoins p.signerAddr none with
    | .error e => (.err e, st)
    | .ok coins =>
      match coins.head? with
      | none => (.err noGasMsg, st)
      | some gasObject =>
        let call : MoveCall :=
          { target := st.packageId ++ "::" ++ st.moduleName ++ "::create_pool"
            args := [.obj st.lpRegistryId, .pureStr tokenX, .pureStr tokenY,
              (match feeField with
                | some q => .pureNum (q * 1000000)
                | none => .pureNaN),
              (match spacingField with
                | some k => .pureNat k
                | none => .pureUndef),
              .pureStr (toString sqrtPriceX96)]
            typeArgs := [tokenX, tokenY]
            gasPayment := [gasObject.coinObjectId] }
        match env.submit call with
        | .error e => (.err e, st)
        | .ok result =>
          if result.statusSuccess then
            match result.events.find?
                (fun ev => strIncludes ev.type (st.moduleName ++ "::PoolCreated")) with
            | none => (.err poolEventNotFoundMsg, st)
            | some ev =>
              match getPoolDetails env st ev.pool_id with
              | (.error e, st') => (.err e, st')
              | (.ok details, st') =>
                (.ok { transactionDigest := result.digest
                       poolId := ev.pool_id
                       tokenX := tokenX
                       tokenY := tokenY
                       feeTierName := feeTier
                       tickSpacing := spacingField
                       fee := feeField
                       sqrtPriceX96 := sqrtPriceX96
                       details := details }, st')
          else (.err (txFailedMsg result.statusError), st)

/-- createPool (src lines 65 to 164): sorts the token types, looks the fee
tier up in FEE_TIERS, and applies the truthiness check of src line 80: only
undefined is falsy there, so both an own record and a member inherited from
Object.prototype pass it, and only the genuine miss throws the
invalid-fee-tier error; the rest of the operation is createPoolBody, run
with the tier record fields for an own key and with undefined fields for an
inherited member. sortTokens and priceToSqrtPriceX96 are the spec-modelled
stand-ins for the helpers missing from the truncated src. -/
def createPool (env : Env) (st : DexState) (p : CreatePoolParams) :
    CreatePoolResult × DexState :=
  let feeTier := p.feeTier.getD "MEDIUM"
  match sortTokens p.coinTypeA p.coinTypeB with
  | .error e => (.err e, st)
  | .ok (tokenX, tokenY) =>
    match FEE_TIERS feeTier with
    | .undefined => (.err (invalidFeeTierMsg feeTier), st)
    | .own tier =>
      createPoolBody env st p tokenX tokenY feeTier (some tier.fee) (some tier.tickSpacing)
    | .inherited =>
      createPoolBody env st p tokenX tokenY feeTier none none

/-- The parameters of addLiquidity (src lines 249 to 257); the slippage
tolerance defaults to one percent when absent. -/
structure AddLiquidityParams where
  poolId : String
  tickLower : Int
  tickUpper : Int
  amountX : ℚ
  amountY : ℚ
  signerAddr : String
  slippageTolerance : Option ℚ
deriving DecidableEq

/-- The outcome of a completed addLiquidity: the token amounts the chain
actually consumed. -/
structure AddOk where
  actualAmountX : Int
  actualAmountY : Int
deriving DecidableEq

/-- Modelled from the spec: the slippage enforcement of the on-chain
add_liquidity Move function, which is not in src (the call is built in the
truncated tail of addLiquidity and executed by the chain). The operation
fails with SlippageExceeded exactly when an actual consumed amount is below
its minimum, and otherwise reports the actual amounts. -/
def moveAddLiquidityCheck (actualX actualY min0 min1 : Int) :
    Except String AddOk :=
  if actualX < min0 || actualY < min1 then .error slippageExceededMsg
  else .ok ⟨actualX, actualY⟩

/-- The body of addLiquidity after the pool snapshot is in hand (src lines
263 to 296 and the truncated tail): fetches the caller coins of both pool
tokens, fails when either list is empty (src line 279), takes the first
coin of each list, computes the two minimum amounts from the slippage
tolerance by the src line 287 and 288 formulas, builds the add_liquidity
Move call, and hands it to the chain; the slippage outcome of the
execution is the spec-modelled moveAddLiquidityCheck applied to the actual
consumed amounts supplied by the environment. -/
def addLiquidityCore (env : Env) (st : DexState) (pool : PoolDetails)
    (p : AddLiquidityParams) : Except String AddOk :=
  let slippageTolerance := p.slippageTolerance.getD (1/100)
  match env.getCoins p.signerAddr (some pool.tokenX),
        env.getCoins p.signerAddr (some pool.tokenY) with
  | .error e, _ => .error e
  | .ok _, .error e => .error e
  | .ok coinsX, .ok coinsY =>
    match coinsX, coinsY with
    | [], _ => .error insufficientCoinsMsg
    | _ :: _, [] => .error insufficientCoinsMsg
    | cX :: _, cY :: _ =>
      let amount0Min : Int := ⌊p.amountX * (1 - slippageTolerance)⌋
      let amount1Min : Int := ⌊p.amountY * (1 - slippageTolerance)⌋
      let _call : MoveCall :=
        { target := st.packageId ++ "::" ++ st.moduleName ++ "::add_liquidity"
          args := [.obj p.poolId, .pureInt p.tickLower, .pureInt p.tickUpper,
            .obj cX.coinObjectId, .obj cY.coinObjectId,
            .pureNum p.amountX, .pureNum p.amountY,
            .pureInt amount0Min, .pureInt amount1Min]
          typeArgs := [pool.tokenX, pool.tokenY]
          gasPayment := [] }
      moveAddLiquidityCheck env.addActualX env.addActualY amount0Min amount1Min

/-- addLiquidity (src lines 248 onward): obtains the pool snapshot through
getPoolDetails, which serves a cached entry when one is present, then runs
the body; a thrown error is caught and returned as an error value, in the
same shape as the createPool catch block. -/
def addLiquidity (env : Env) (st : DexState) (p : AddLiquidityParams) :
    Except String AddOk × DexState :=
  match getPoolDetails env st p.poolId with
  | (.error e, st') => (.error e, st')
  | (.ok pool, st') => (addLiquidityCore env st' pool p, st')

/-- A cache hit short-circuits getPoolDetails: the stored snapshot is
returned as is and the state is untouched, before any provider contact. -/
theorem getPoolDetails_cacheHit (env : Env) (st : DexState) (pid : String)
    (d : PoolDetails) (h : cacheLookup st.poolCache pid = some d) :
    getPoolDetails env st pid = (.ok d, st) := by
  unfold getPoolDetails
  rw [h]

/-- Two distinct strings sort to an ordered pair, one way or the other. -/
theorem sortTokens_ok (a b : String) (h : a ≠ b) :
    ∃ x y, sortTokens a b = .ok (x, y) := by
  unfold sortTokens
  rw [if_neg h]
  by_cases hlt : charListLt a.toList b.toList = true
  · exact ⟨a, b, by rw [if_pos hlt]⟩
  · exact ⟨b, a, by rw [if_neg hlt]⟩

/-- Storing under a fresh key appends: the cache grows by exactly one
entry and loses none. -/
theorem cacheSet_length_of_miss (c : PoolCache) (k : String) (v : PoolDetails)
    (h : cacheLookup c k = none) : (cacheSet c k v).length = c.length + 1 := by
  induction c with
  | nil => rfl
  | cons hd t ih =>
    obtain ⟨k', v'⟩ := hd
    unfold cacheLookup at h
    unfold cacheSet
    by_cases hk : k' = k
    · rw [if_pos hk] at h
      exact absurd h (by simp)
    · rw [if_neg hk] at h
      rw [if_neg hk]
      simp [List.length_cons, ih h]

/-- Token metadata oracle used by the concrete environments below. -/
def mdOf (t : String) : TokenMetadata := ⟨t, 9⟩

/-- An empty configuration: every option absent. -/
def cfg0 : Config := ⟨none, none, none, none, none, none, none⟩

/-- A concrete raw pool object. -/
def obj0 : SuiObjectData :=
  { typeStr := "0x2::liquidity_pool::Pool<0xa::a::A, 0xb::b::B>"
    sqrt_price_x96 := 0
    liquidity := 0
    fee := 3000
    tick_spacing := 60
    current_tick := 0 }

/-- A concrete successful transaction result carrying a PoolCreated
event. -/
def txr0 : TxResult :=
  { statusSuccess := true
    statusError := ""
    digest := "0xdigest"
    events := [⟨"0x2::liquidity_pool::PoolCreated", "0xpool1"⟩] }

/-- A concrete benign environment: every fetch succeeds, every submission
succeeds with txr0, the chain consumes 990 of each token. -/
def env0 : Env :=
  { getObject := fun _ => .ok (some obj0)
    getCoins := fun _ _ => .ok [⟨"0xcoin"⟩]
    submit := fun _ => .ok txr0
    fetchMetadata := mdOf
    calcTVL := fun _ _ _ _ _ _ => 0
    addActualX := 990
    addActualY := 990 }

/-- The state of a freshly constructed instance with an empty
configuration. -/
def st0 : DexState := SuiLiquidityPool.construct cfg0

/-- A snapshot sitting in the cache under pool id 0xpool1; its token types
are deliberately unlike anything the provider would return, so an operation
whose output shows them demonstrably read the cache. -/
def dStale : PoolDetails :=
  { id := "0xpool1"
    tokenX := "0xstale::s::X"
    tokenY := "0xstale::s::Y"
    tokenXMetadata := mdOf "0xstale::s::X"
    tokenYMetadata := mdOf "0xstale::s::Y"
    sqrtPriceX96 := 0
    price := 0
    liquidity := 0
    fee := 3/1000
    tickSpacing := 60
    currentTick := 0
    tvl := 0 }

/-- A state whose pool cache already holds dStale under 0xpool1. -/
def stCached : DexState := { st0 with poolCache := [("0xpool1", dStale)] }

/-- An environment in which every object fetch is rejected: a fresh fetch
of pool state is impossible. -/
def envNoFetch : Env := { env0 with getObject := fun _ => .error "unreachable" }

/-- Concrete addLiquidity parameters targeting pool 0xpool1 with the
default slippage tolerance. -/
def addParams0 : AddLiquidityParams :=
  { poolId := "0xpool1"
    tickLower := -60
    tickUpper := 60
    amountX := 1000
    amountY := 1000
    signerAddr := "0xme"
    slippageTolerance := none }

/-- C10: createPool applies defaults for omitted parameters; a call with no
feeTier behaves exactly as one with MEDIUM, and a call with no initialPrice
behaves exactly as one with the decimal price one (the parsed value of the
default price string). -/
theorem C10_createPoolDefaults (env : Env) (st : DexState) (p : CreatePoolParams) :
    createPool env st { p with feeTier := none } =
      createPool env st { p with feeTier := some "MEDIUM" }
    ∧ createPool env st { p with initialPrice := none } =
      createPool env st { p with initialPrice := some 1 } :=
  ⟨rfl, rfl⟩

/-- C9 counterexample: with the unrecognized network name localnet, which is
neither mainnet nor unspecified, the constructor still honors the
rpcEndpoint override, because every name other than devnet and testnet falls
into the default switch branch. -/
theorem C9_counterexample :
    (SuiLiquidityPool.construct
      { cfg0 with network := some "localnet",
                  rpcEndpoint := some "https://rpc.example.org" }).endpoint =
      .custom "https://rpc.example.org"
    ∧ some "localnet" ≠ some "mainnet"
    ∧ some "localnet" ≠ (none : Option String) := by
  refine ⟨rfl, by decide, by decide⟩

/-- C9 amended: the constructor connects devnet and testnet to their fixed
endpoints, ignoring rpcEndpoint; every other configured network value,
mainnet, unspecified, empty, or unrecognized, falls to the default branch,
where a present nonempty rpcEndpoint is honored and otherwise the fixed
mainnet connection is used. -/
theorem C9_networkDispatch (cfg : Config) :
    (jsStringOr cfg.network "mainnet" = "devnet" →
      (SuiLiquidityPool.construct cfg).endpoint = .devnet)
    ∧ (jsStringOr cfg.network "mainnet" = "testnet" →
      (SuiLiquidityPool.construct cfg).endpoint = .testnet)
    ∧ (jsStringOr cfg.network "mainnet" ≠ "devnet" →
       jsStringOr cfg.network "mainnet" ≠ "testnet" →
       (∀ u, cfg.rpcEndpoint = some u → u ≠ "" →
          (SuiLiquidityPool.construct cfg).endpoint = .custom u)
       ∧ (cfg.rpcEndpoint = none →
          (SuiLiquidityPool.construct cfg).endpoint = .mainnet)) := by
  unfold SuiLiquidityPool.construct mkProvider
  refine ⟨fun h => by simp [h], fun h => ?_, fun h1 h2 => ⟨fun u hu hne => ?_, fun hn => ?_⟩⟩
  · rw [h]
    simp
  · rw [if_neg h1, if_neg h2, hu]
    simp [hne]
  · rw [if_neg h1, if_neg h2, hn]

/-- C9 witness: the devnet and testnet cases ignore a supplied rpcEndpoint,
and an empty configuration lands on the fixed mainnet connection. -/
theorem C9_networkDispatch_witness :
    (SuiLiquidityPool.construct
      { cfg0 with network := some "devnet",
                  rpcEndpoint := some "https://rpc.example.org" }).endpoint = .devnet
    ∧ (SuiLiquidityPool.construct
      { cfg0 with network := some "testnet",
                  rpcEndpoint := some "https://rpc.example.org" }).endpoint = .testnet
    ∧ (SuiLiquidityPool.construct cfg0).endpoint = .mainnet :=
  ⟨(C9_networkDispatch _).1 (by decide),
   (C9_networkDispatch _).2.1 (by decide),
   ((C9_networkDispatch cfg0).2.2 (by decide) (by decide)).2 rfl⟩

/-- An environment in which every object fetch is rejected with the bare
collaborator message boom. -/
def envBoom : Env := { env0 with getObject := fun _ => .error "boom" }

/-- C8 counterexample: a provider failure with message boom surfaces from
getPoolDetails as a different message, rewrapped behind the fixed operation
text, and the pool id 0xdeadbeef appears nowhere in what the caller
receives; the error is neither unchanged nor carrying the pool id. -/
theorem C8_counterexample :
    getPoolDetails envBoom st0 "0xdeadbeef" = (.error (fetchFailMsg "boom"), st0)
    ∧ fetchFailMsg "boom" ≠ "boom"
    ∧ strIncludes (fetchFailMsg "boom") "0xdeadbeef" = false := by
  refine ⟨rfl, by decide, by decide⟩

/-- C8 amended: no collaborator failure is dropped and none becomes a
success: a rejected object fetch is rethrown by getPoolDetails with the
fixed operation prefix and the original message as its suffix (the pool id
is not attached), and a rejected transaction submission is caught by
createPool and returned as a failure value carrying exactly the
collaborator message. -/
theorem C8_errorPropagation :
    (∀ (env : Env) (st : DexState) (pid e : String),
      cacheLookup st.poolCache pid = none →
      env.getObject pid = .error e →
      getPoolDetails env st pid = (.error (fetchFailMsg e), st))
    ∧ (∀ (env : Env) (st : DexState) (p : CreatePoolParams)
        (gas : Coin) (coins : List Coin) (e : String),
      p.coinTypeA ≠ p.coinTypeB →
      (∃ t, FEE_TIERS (p.feeTier.getD "MEDIUM") = .own t) →
      0 < p.initialPrice.getD 1 →
      env.getCoins p.signerAddr none = .ok (gas :: coins) →
      (∀ c, env.submit c = .error e) →
      createPool env st p = (.err e, st)) := by
  constructor
  · intro env st pid e hmiss hfail
    unfold getPoolDetails
    rw [hmiss, hfail]
  · intro env st p gas coins e hab htier hprice hcoins hsubmit
    obtain ⟨x, y, hsort⟩ := sortTokens_ok _ _ hab
    obtain ⟨tier, htier'⟩ := htier
    have hpx : priceToSqrtPriceX96 (p.initialPrice.getD 1) =
        .ok (Nat.sqrt (⌊p.initialPrice.getD 1 * 2 ^ 192⌋).toNat) := by
      unfold priceToSqrtPriceX96
      rw [if_neg (not_le.mpr hprice)]
    simp only [createPool, createPoolBody, hsort, htier', hpx, hcoins,
      List.head?_cons, hsubmit]

/-- An environment in which every transaction submission is rejected with
the bare collaborator message subm-boom. -/
def envSubmitBoom : Env := { env0 with submit := fun _ => .error "subm-boom" }

/-- Concrete createPool parameters with two distinct token types and all
optional fields absent. -/
def cp0 : CreatePoolParams :=
  { coinTypeA := "0xa::a::A"
    coinTypeB := "0xb::b::B"
    feeTier := none
    signerAddr := "0xme"
    initialPrice := none }

/-- C8 witness: the amended propagation at concrete inputs; a fetch failure
reaches the getPoolDetails caller wrapped, and a submission failure reaches
the createPool caller as a failure value with the exact message. -/
theorem C8_errorPropagation_witness :
    getPoolDetails envBoom st0 "0xpool1" = (.error (fetchFailMsg "boom"), st0)
    ∧ createPool envSubmitBoom st0 cp0 = (.err "subm-boom", st0) :=
  ⟨C8_errorPropagation.1 envBoom st0 "0xpool1" "boom" rfl rfl,
   C8_errorPropagation.2 envSubmitBoom st0 cp0 ⟨"0xcoin"⟩ [] "subm-boom"
     (by decide) ⟨⟨3/1000, 60⟩, rfl⟩ (by norm_num [cp0]) rfl (fun c => rfl)⟩

/-- C1 counterexample: in an environment where every object fetch is
rejected, so no fresh fetch of pool state can possibly succeed, addLiquidity
on a pool whose id sits in the cache still completes successfully, operating
on the cached snapshot; the pool state it operates on is read from the
cache, not freshly fetched, and the stale entry survives the mutation
untouched. -/
theorem C1_counterexample :
    addLiquidity envNoFetch stCached addParams0 = (.ok ⟨990, 990⟩, stCached)
    ∧ envNoFetch.getObject "0xpool1" = .error "unreachable"
    ∧ cacheLookup stCached.poolCache "0xpool1" = some dStale := by
  refine ⟨?_, rfl, rfl⟩
  have h : getPoolDetails envNoFetch stCached "0xpool1" = (.ok dStale, stCached) :=
    getPoolDetails_cacheHit _ _ _ _ rfl
  have hcore : addLiquidityCore envNoFetch stCached dStale addParams0 = .ok ⟨990, 990⟩ := by
    unfold addLiquidityCore moveAddLiquidityCheck
    norm_num [addParams0, envNoFetch, env0, dStale, Option.getD_none]
  unfold addLiquidity
  rw [show addParams0.poolId = "0xpool1" from rfl, h]
  show (addLiquidityCore envNoFetch stCached dStale addParams0, stCached) = _
  rw [hcore]

/-- C1 amended: addLiquidity obtains the pool state it operates on through
getPoolDetails, which consults the cache first: whenever the cache holds an
entry for the pool id, that entry is what the mutation operates on, no
fresh fetch happens, and the cache entry is neither invalidated nor
updated afterwards. -/
theorem C1_mutationReadsCache (env : Env) (st : DexState)
    (p : AddLiquidityParams) (d : PoolDetails)
    (h : cacheLookup st.poolCache p.poolId = some d) :
    getPoolDetails env st p.poolId = (.ok d, st)
    ∧ addLiquidity env st p = (addLiquidityCore env st d p, st)
    ∧ cacheLookup (addLiquidity env st p).2.poolCache p.poolId = some d := by
  have hg : getPoolDetails env st p.poolId = (.ok d, st) :=
    getPoolDetails_cacheHit _ _ _ _ h
  have ha : addLiquidity env st p = (addLiquidityCore env st d p, st) := by
    unfold addLiquidity
    rw [hg]
  exact ⟨hg, ha, by rw [ha]; exact h⟩

/-- C1 witness: the amended statement at the concrete cached state; the
mutation runs on the stale snapshot and leaves it in place. -/
theorem C1_mutationReadsCache_witness :
    getPoolDetails envNoFetch stCached "0xpool1" = (.ok dStale, stCached)
    ∧ addLiquidity envNoFetch stCached addParams0 =
        (addLiquidityCore envNoFetch stCached dStale addParams0, stCached)
    ∧ cacheLookup (addLiquidity envNoFetch stCached addParams0).2.poolCache
        "0xpool1" = some dStale :=
  C1_mutationReadsCache envNoFetch stCached addParams0 dStale rfl

/-- C5 counterexample: with cacheMaxEntries configured as one, two
getPoolDetails calls on distinct pool ids leave two entries in the cache;
no configured maximum bounds the cache, no eviction happens, and the
snapshots stored carry no last-refreshed timestamp to check. -/
theorem C5_counterexample :
    ({ cfg0 with cacheMaxEntries := some 1 } : Config).cacheMaxEntries = some 1
    ∧ ((getPoolDetails env0
        (getPoolDetails env0
          (SuiLiquidityPool.construct { cfg0 with cacheMaxEntries := some 1 })
          "0xp1").2
        "0xp2").2).poolCache.length = 2 := by
  exact ⟨rfl, rfl⟩

/-- C5 amended: the pool cache is an unbounded map with no freshness
tracking: the constructor ignores the cacheMaxEntries and cacheTtlSeconds
options entirely, a cached entry is returned unconditionally whenever
present, and a miss that fetches successfully stores the new snapshot
without evicting anything, growing the cache by exactly one entry. -/
theorem C5_cacheUnbounded :
    (∀ (cfg : Config) (n m : Option Nat),
      SuiLiquidityPool.construct { cfg with cacheMaxEntries := n, cacheTtlSeconds := m } =
        SuiLiquidityPool.construct cfg)
    ∧ (∀ (env : Env) (st : DexState) (pid : String) (d : PoolDetails),
      cacheLookup st.poolCache pid = some d →
      getPoolDetails env st pid = (.ok d, st))
    ∧ (∀ (env : Env) (st : DexState) (pid : String) (d' : PoolDetails) (st' : DexState),
      cacheLookup st.poolCache pid = none →
      getPoolDetails env st pid = (.ok d', st') →
      st'.poolCache = cacheSet st.poolCache pid d'
      ∧ st'.poolCache.length = st.poolCache.length + 1) := by
  refine ⟨fun cfg n m => rfl, fun env st pid d h => getPoolDetails_cacheHit env st pid d h,
    fun env st pid d' st' hmiss hok => ?_⟩
  unfold getPoolDetails at hok
  rw [hmiss] at hok
  rcases hobj : env.getObject pid with e | o
  · simp [hobj] at hok
  · rcases o with _ | data
    · simp [hobj] at hok
    · rcases hm : matchTypePair data.typeStr with _ | ⟨tx, ty⟩
      · simp [hobj, hm] at hok
      · simp only [hobj, hm, Prod.mk.injEq, Except.ok.injEq] at hok
        obtain ⟨hd, hst⟩ := hok
        subst hd
        subst hst
        exact ⟨rfl, cacheSet_length_of_miss _ _ _ hmiss⟩

/-- The snapshot getPoolDetails builds from obj0 under pool id 0xp1 in
env0, written with the exact component terms the operation assembles. -/
def dFresh : PoolDetails :=
  { id := "0xp1"
    tokenX := "0xa::a::A"
    tokenY := "0xb::b::B"
    tokenXMetadata := mdOf "0xa::a::A"
    tokenYMetadata := mdOf "0xb::b::B"
    sqrtPriceX96 := 0
    price := sqrtPriceX96ToPrice 0
    liquidity := 0
    fee := (obj0.fee : ℚ) / 1000000
    tickSpacing := 60
    currentTick := 0
    tvl := 0 }

/-- C5 witness: the amended facts at concrete inputs; the constructor
output is unchanged by a cache bound, a cached entry is served as is, and
a miss grows the cache from zero to one entry with no eviction. -/
theorem C5_cacheUnbounded_witness :
    SuiLiquidityPool.construct
        { cfg0 with cacheMaxEntries := some 1, cacheTtlSeconds := some 1 } =
      SuiLiquidityPool.construct cfg0
    ∧ getPoolDetails envNoFetch stCached "0xpool1" = (.ok dStale, stCached)
    ∧ (getPoolDetails env0 st0 "0xp1").2.poolCache =
        cacheSet st0.poolCache "0xp1" dFresh
    ∧ (getPoolDetails env0 st0 "0xp1").2.poolCache.length =
        st0.poolCache.length + 1 := by
  have h3 := C5_cacheUnbounded.2.2 env0 st0 "0xp1" dFresh
    (getPoolDetails env0 st0 "0xp1").2 rfl rfl
  exact ⟨C5_cacheUnbounded.1 cfg0 (some 1) (some 1),
    C5_cacheUnbounded.2.1 envNoFetch stCached "0xpool1" dStale rfl, h3.1, h3.2⟩

/-- With a sortable token pair, a fee-tier name that resolves to undefined
makes createPool throw at the tier check and return the unknown-fee-tier
error. -/
theorem createPool_unknownTier (env : Env) (st : DexState) (p : CreatePoolParams)
    (name : String) (hft : p.feeTier = some name) (hnone : FEE_TIERS name = .undefined)
    (hab : p.coinTypeA ≠ p.coinTypeB) :
    createPool env st p = (.err (invalidFeeTierMsg name), st) := by
  obtain ⟨x, y, hsort⟩ := sortTokens_ok _ _ hab
  simp only [createPool, hft, Option.getD_some, hsort, hnone]

/-- Every standard Object.prototype member name resolves to a truthy
inherited value in the FEE_TIERS lookup. -/
theorem FEE_TIERS_proto (name : String) (hmem : name ∈ objectProtoNames) :
    FEE_TIERS name = .inherited := by
  have h1 : name ≠ "LOW" := fun h => absurd (h ▸ hmem) (by decide)
  have h2 : name ≠ "MEDIUM" := fun h => absurd (h ▸ hmem) (by decide)
  have h3 : name ≠ "HIGH" := fun h => absurd (h ▸ hmem) (by decide)
  unfold FEE_TIERS
  rw [if_neg h1, if_neg h2, if_neg h3, if_pos hmem]

/-- An environment identical to env0 except that the signer owns no coins
at all, so the gas fetch of src line 91 comes back empty. -/
def envNoGas : Env := { env0 with getCoins := fun _ _ => .ok [] }

/-- Concrete createPool parameters asking for the fee tier toString, a
name inherited by every plain object from Object.prototype. -/
def cpToStr : CreatePoolParams := { cp0 with feeTier := some "toString" }

/-- C2 counterexample: the fee-tier name toString is not one of the three
declared tiers, yet createPool does not fail with the fee-tier error: the
object lookup finds the inherited Object.prototype member, which is truthy,
so the check of src line 80 passes and execution reaches the gas fetch,
failing there with the no-gas error in an environment owning no coins; the
claim that resolving any other name fails with UnknownFeeTier is false of
the program. -/
theorem C2_counterexample :
    FEE_TIERS "toString" = .inherited
    ∧ createPool envNoGas st0 cpToStr = (.err noGasMsg, st0)
    ∧ noGasMsg ≠ invalidFeeTierMsg "toString" := by
  exact ⟨by decide, rfl, by decide⟩

/-- C2 amended: the fee-tier lookup resolves the three own keys LOW,
MEDIUM and HIGH to records yielding, through the parts-per-million product
createPool computes, 500 ppm with spacing 10, 3000 ppm with spacing 60,
and 10000 ppm with spacing 200; a name that is neither an own key nor a
standard Object.prototype member resolves to undefined and makes
createPool fail with the fee-tier error; but an inherited
Object.prototype member name resolves to a truthy value, passes the
truthiness check, and createPool proceeds into the body with undefined
fee and tick-spacing fields instead of failing. -/
theorem C2_feeTierLookup :
    (∃ t, FEE_TIERS "LOW" = .own t ∧ t.fee * 1000000 = 500 ∧ t.tickSpacing = 10)
    ∧ (∃ t, FEE_TIERS "MEDIUM" = .own t ∧ t.fee * 1000000 = 3000 ∧ t.tickSpacing = 60)
    ∧ (∃ t, FEE_TIERS "HIGH" = .own t ∧ t.fee * 1000000 = 10000 ∧ t.tickSpacing = 200)
    ∧ (∀ name, name ≠ "LOW" → name ≠ "MEDIUM" → name ≠ "HIGH" →
        name ∉ objectProtoNames →
        FEE_TIERS name = .undefined
        ∧ ∀ (env : Env) (st : DexState) (p : CreatePoolParams),
            p.feeTier = some name → p.coinTypeA ≠ p.coinTypeB →
            createPool env st p = (.err (invalidFeeTierMsg name), st))
    ∧ (∀ name, name ∈ objectProtoNames →
        FEE_TIERS name = .inherited
        ∧ ∀ (env : Env) (st : DexState) (p : CreatePoolParams),
            p.feeTier = some name → p.coinTypeA ≠ p.coinTypeB →
            ∃ x y, sortTokens p.coinTypeA p.coinTypeB = .ok (x, y)
              ∧ createPool env st p = createPoolBody env st p x y name none none) := by
  refine ⟨⟨_, rfl, by norm_num, rfl⟩, ⟨_, rfl, by norm_num, rfl⟩,
    ⟨_, rfl, by norm_num, rfl⟩, fun name h1 h2 h3 h4 => ?_, fun name hmem => ?_⟩
  · have hnone : FEE_TIERS name = .undefined := by
      unfold FEE_TIERS
      rw [if_neg h1, if_neg h2, if_neg h3, if_neg h4]
    exact ⟨hnone, fun env st p hft hab =>
      createPool_unknownTier env st p name hft hnone hab⟩
  · refine ⟨FEE_TIERS_proto name hmem, fun env st p hft hab => ?_⟩
    obtain ⟨x, y, hsort⟩ := sortTokens_ok _ _ hab
    refine ⟨x, y, hsort, ?_⟩
    simp only [createPool, hft, Option.getD_some, hsort, FEE_TIERS_proto name hmem]

/-- Concrete createPool parameters asking for the unrecognized fee tier
WILD. -/
def cpWild : CreatePoolParams := { cp0 with feeTier := some "WILD" }

/-- C2 witness: the amended facts at concrete names; WILD is a genuine
miss and fails with the fee-tier error, while toString is inherited and
sends createPool into the body with undefined tier fields. -/
theorem C2_feeTierLookup_witness :
    (FEE_TIERS "WILD" = .undefined
      ∧ createPool env0 st0 cpWild = (.err (invalidFeeTierMsg "WILD"), st0))
    ∧ (FEE_TIERS "toString" = .inherited
      ∧ ∃ x y, sortTokens cpToStr.coinTypeA cpToStr.coinTypeB = .ok (x, y)
          ∧ createPool envNoGas st0 cpToStr =
              createPoolBody envNoGas st0 cpToStr x y "toString" none none) := by
  have h4 := C2_feeTierLookup.2.2.2.1 "WILD" (by decide) (by decide) (by decide) (by decide)
  have h5 := C2_feeTierLookup.2.2.2.2 "toString" (by decide)
  exact ⟨⟨h4.1, h4.2 env0 st0 cpWild rfl (by decide)⟩,
    ⟨h5.1, h5.2 envNoGas st0 cpToStr rfl (by decide)⟩⟩

/-- Concrete createPool parameters with an unrecognized fee tier and a
negative initial price together. -/
def cpBogusNeg : CreatePoolParams :=
  { cp0 with feeTier := some "BOGUS", initialPrice := some (-1) }

/-- C3 counterexample: an input whose initial decimal price is negative but
whose fee tier name is unrecognized makes createPool fail with the
unknown-fee-tier error, not the invalid-input error, because the fee-tier
check of src line 79 runs before the price conversion of src line 85; the
claim that every input with a nonpositive price fails with InvalidInput is
therefore false as stated. -/
theorem C3_counterexample :
    cpBogusNeg.initialPrice.getD 1 ≤ 0
    ∧ createPool env0 st0 cpBogusNeg = (.err (invalidFeeTierMsg "BOGUS"), st0)
    ∧ invalidFeeTierMsg "BOGUS" ≠ invalidInputMsg := by
  refine ⟨by norm_num [cpBogusNeg, cp0], ?_, by decide⟩
  exact createPool_unknownTier env0 st0 cpBogusNeg "BOGUS" rfl (by decide) (by decide)

/-- C3 amended: createPool fails with InvalidTokenPair on every input whose
two token types are equal (the token sort is its first validation), and
fails with InvalidInput on every input whose initial decimal price is
nonpositive provided the tokens are distinct and the fee-tier name is
recognized; when the fee-tier name is also unrecognized, the
unknown-fee-tier error fires first instead. -/
theorem C3_createPoolValidation (env : Env) (st : DexState) (p : CreatePoolParams) :
    (p.coinTypeA = p.coinTypeB →
      createPool env st p = (.err invalidTokenPairMsg, st))
    ∧ (p.coinTypeA ≠ p.coinTypeB →
       (∃ t, FEE_TIERS (p.feeTier.getD "MEDIUM") = .own t) →
       p.initialPrice.getD 1 ≤ 0 →
       createPool env st p = (.err invalidInputMsg, st)) := by
  constructor
  · intro hab
    have hsort : sortTokens p.coinTypeA p.coinTypeB = .error invalidTokenPairMsg := by
      unfold sortTokens
      rw [if_pos hab]
    simp only [createPool, hsort]
  · intro hab htier hneg
    obtain ⟨x, y, hsort⟩ := sortTokens_ok _ _ hab
    obtain ⟨tier, htier'⟩ := htier
    have hpx : priceToSqrtPriceX96 (p.initialPrice.getD 1) = .error invalidInputMsg := by
      unfold priceToSqrtPriceX96
      rw [if_pos hneg]
    simp only [createPool, createPoolBody, hsort, htier', hpx]

/-- Concrete createPool parameters whose two token types are equal. -/
def cpEqTok : CreatePoolParams := { cp0 with coinTypeB := cp0.coinTypeA }

/-- Concrete createPool parameters with distinct tokens, the default fee
tier, and a negative initial price. -/
def cpNegPrice : CreatePoolParams := { cp0 with initialPrice := some (-1) }

/-- C3 witness: the amended validation at concrete inputs; equal tokens
yield the InvalidTokenPair error and a negative price with a recognized
tier yields the InvalidInput error. -/
theorem C3_createPoolValidation_witness :
    createPool env0 st0 cpEqTok = (.err invalidTokenPairMsg, st0)
    ∧ createPool env0 st0 cpNegPrice = (.err invalidInputMsg, st0) :=
  ⟨(C3_createPoolValidation env0 st0 cpEqTok).1 rfl,
   (C3_createPoolValidation env0 st0 cpNegPrice).2 (by decide) ⟨⟨3/1000, 60⟩, rfl⟩
     (by norm_num [cpNegPrice, cp0])⟩

/-- C6: after a successful submission, createPool finds the event whose
type contains the module-qualified PoolCreated name, reads its pool_id
field as the new pool id, and fails with the event-not-found error when no
event of the returned list matches. -/
theorem C6_poolCreatedEvent (env : Env) (st : DexState) (p : CreatePoolParams)
    (gas : Coin) (coins : List Coin) (txr : TxResult)
    (hab : p.coinTypeA ≠ p.coinTypeB)
    (htier : ∃ t, FEE_TIERS (p.feeTier.getD "MEDIUM") = .own t)
    (hprice : 0 < p.initialPrice.getD 1)
    (hcoins : env.getCoins p.signerAddr none = .ok (gas :: coins))
    (hsubmit : ∀ c, env.submit c = .ok txr)
    (hok : txr.statusSuccess = true) :
    (∀ ev, txr.events.find?
        (fun e => strIncludes e.type (st.moduleName ++ "::PoolCreated")) = some ev →
      ∀ d, cacheLookup st.poolCache ev.pool_id = some d →
        ∃ r, createPool env st p = (.ok r, st) ∧ r.poolId = ev.pool_id ∧ r.details = d)
    ∧ (txr.events.find?
        (fun e => strIncludes e.type (st.moduleName ++ "::PoolCreated")) = none →
      createPool env st p = (.err poolEventNotFoundMsg, st)) := by
  obtain ⟨x, y, hsort⟩ := sortTokens_ok _ _ hab
  obtain ⟨tier, htier'⟩ := htier
  have hpx : priceToSqrtPriceX96 (p.initialPrice.getD 1) =
      .ok (Nat.sqrt (⌊p.initialPrice.getD 1 * 2 ^ 192⌋).toNat) := by
    unfold priceToSqrtPriceX96
    rw [if_neg (not_le.mpr hprice)]
  constructor
  · intro ev hev d hd
    have hgp := getPoolDetails_cacheHit env st ev.pool_id d hd
    refine ⟨{ transactionDigest := txr.digest
              poolId := ev.pool_id
              tokenX := x
              tokenY := y
              feeTierName := p.feeTier.getD "MEDIUM"
              tickSpacing := some tier.tickSpacing
              fee := some tier.fee
              sqrtPriceX96 := Nat.sqrt (⌊p.initialPrice.getD 1 * 2 ^ 192⌋).toNat
              details := d }, ?_, rfl, rfl⟩
    simp only [createPool, createPoolBody, hsort, htier', hpx, hcoins,
      List.head?_cons, hsubmit, hok, if_true, hev, hgp]
  · intro hev
    simp only [createPool, createPoolBody, hsort, htier', hpx, hcoins,
      List.head?_cons, hsubmit, hok, if_true, hev]

/-- A successful transaction result carrying no events at all. -/
def txrNoEvt : TxResult := { txr0 with events := [] }

/-- An environment whose submissions succeed but emit no events. -/
def envNoEvt : Env := { env0 with submit := fun _ => .ok txrNoEvt }

/-- C6 witness: at concrete inputs, the pool id of the success object is
the pool_id of the matching PoolCreated event, and an empty event list
makes createPool fail with the event-not-found error. -/
theorem C6_poolCreatedEvent_witness :
    (∃ r, createPool env0 stCached cp0 = (.ok r, stCached)
      ∧ r.poolId = "0xpool1" ∧ r.details = dStale)
    ∧ createPool envNoEvt stCached cp0 = (.err poolEventNotFoundMsg, stCached) := by
  constructor
  · obtain ⟨r, hr, hid, hd⟩ := (C6_poolCreatedEvent env0 stCached cp0 ⟨"0xcoin"⟩ [] txr0
      (by decide) ⟨⟨3/1000, 60⟩, rfl⟩ (by norm_num [cp0]) rfl (fun c => rfl) rfl).1
      ⟨"0x2::liquidity_pool::PoolCreated", "0xpool1"⟩ (by decide) dStale rfl
    exact ⟨r, hr, hid, hd⟩
  · exact (C6_poolCreatedEvent envNoEvt stCached cp0 ⟨"0xcoin"⟩ [] txrNoEvt
      (by decide) ⟨⟨3/1000, 60⟩, rfl⟩ (by norm_num [cp0]) rfl (fun c => rfl) rfl).2 rfl

/-- C7: with the pool snapshot available and both coin lists nonempty,
addLiquidity computes each minimum amount as the floor of the requested
amount scaled by one minus the caller-supplied tolerance (src lines 287 and
288), and the operation fails with SlippageExceeded exactly when an actual
consumed amount falls below its minimum; otherwise it reports the actual
amounts. -/
theorem C7_slippageEnforcement (env : Env) (st : DexState) (p : AddLiquidityParams)
    (d : PoolDetails) (c1 c2 : Coin) (cX cY : List Coin)
    (hcache : cacheLookup st.poolCache p.poolId = some d)
    (hx : env.getCoins p.signerAddr (some d.tokenX) = .ok (c1 :: cX))
    (hy : env.getCoins p.signerAddr (some d.tokenY) = .ok (c2 :: cY)) :
    ((addLiquidity env st p).1 = .error slippageExceededMsg ↔
      env.addActualX < ⌊p.amountX * (1 - p.slippageTolerance.getD (1/100))⌋
      ∨ env.addActualY < ⌊p.amountY * (1 - p.slippageTolerance.getD (1/100))⌋)
    ∧ (¬(env.addActualX < ⌊p.amountX * (1 - p.slippageTolerance.getD (1/100))⌋
        ∨ env.addActualY < ⌊p.amountY * (1 - p.slippageTolerance.getD (1/100))⌋) →
      (addLiquidity env st p).1 = .ok ⟨env.addActualX, env.addActualY⟩) := by
  have hg := getPoolDetails_cacheHit env st p.poolId d hcache
  have ha : (addLiquidity env st p).1 = addLiquidityCore env st d p := by
    unfold addLiquidity
    rw [hg]
  have hcore : addLiquidityCore env st d p =
      moveAddLiquidityCheck env.addActualX env.addActualY
        ⌊p.amountX * (1 - p.slippageTolerance.getD (1/100))⌋
        ⌊p.amountY * (1 - p.slippageTolerance.getD (1/100))⌋ := by
    simp only [addLiquidityCore, hx, hy]
  rw [ha, hcore]
  unfold moveAddLiquidityCheck
  by_cases hb : env.addActualX < ⌊p.amountX * (1 - p.slippageTolerance.getD (1/100))⌋
      ∨ env.addActualY < ⌊p.amountY * (1 - p.slippageTolerance.getD (1/100))⌋
  · have hbt : (decide (env.addActualX <
        ⌊p.amountX * (1 - p.slippageTolerance.getD (1/100))⌋)
        || decide (env.addActualY <
        ⌊p.amountY * (1 - p.slippageTolerance.getD (1/100))⌋)) = true := by
      simpa [Bool.or_eq_true, decide_eq_true_eq] using hb
    rw [if_pos hbt]
    exact ⟨⟨fun _ => hb, fun _ => rfl⟩, fun hn => absurd hb hn⟩
  · have hbf : ¬((decide (env.addActualX <
        ⌊p.amountX * (1 - p.slippageTolerance.getD (1/100))⌋)
        || decide (env.addActualY <
        ⌊p.amountY * (1 - p.slippageTolerance.getD (1/100))⌋)) = true) := by
      simpa [Bool.or_eq_true, decide_eq_true_eq] using hb
    rw [if_neg hbf]
    exact ⟨⟨fun h => absurd h (by simp), fun h => absurd h hb⟩, fun _ => rfl⟩

/-- An environment in which the chain consumes none of token X. -/
def envSlip : Env := { env0 with addActualX := 0 }

/-- C7 witness: at the concrete cached pool with requested amounts 1000 and
the default one percent tolerance, the minimums are 990; a consumed amount
of zero trips the SlippageExceeded failure, and consumed amounts of 990
succeed exactly at the boundary. -/
theorem C7_slippageEnforcement_witness :
    (addLiquidity envSlip stCached addParams0).1 = .error slippageExceededMsg
    ∧ (addLiquidity env0 stCached addParams0).1 = .ok ⟨990, 990⟩ := by
  constructor
  · exact (C7_slippageEnforcement envSlip stCached addParams0 dStale
      ⟨"0xcoin"⟩ ⟨"0xcoin"⟩ [] [] rfl rfl rfl).1.mpr
      (Or.inl (by norm_num [addParams0, envSlip, env0]))
  · exact (C7_slippageEnforcement env0 stCached addParams0 dStale
      ⟨"0xcoin"⟩ ⟨"0xcoin"⟩ [] [] rfl rfl rfl).2
      (by norm_num [addParams0, env0])

/-- C4: for every positive decimal price, converting to the Q64.96 sqrt
representation and back yields a value below the input by strictly less
than the gap to the next representable price: the round trip rounds toward
zero and stays within one unit of the minimum representable precision. -/
theorem C4_priceRoundTrip (p : ℚ) (s : Nat) (hp : 0 < p)
    (hs : priceToSqrtPriceX96 p = .ok s) :
    sqrtPriceX96ToPrice s ≤ p
    ∧ p - sqrtPriceX96ToPrice s < sqrtPriceUlp s := by
  have h2 : (0 : ℚ) < 2 ^ 192 := by positivity
  unfold priceToSqrtPriceX96 at hs
  rw [if_neg (not_le.mpr hp)] at hs
  simp only [Except.ok.injEq] at hs
  subst hs
  set n : ℕ := (⌊p * 2 ^ 192⌋).toNat with hn
  have hfl : (0 : ℤ) ≤ ⌊p * 2 ^ 192⌋ := Int.floor_nonneg.mpr (by positivity)
  have hcast : ((n : ℤ) : ℚ) = ((⌊p * 2 ^ 192⌋ : ℤ) : ℚ) := by
    rw [hn, Int.toNat_of_nonneg hfl]
  have hnle : (n : ℚ) ≤ p * 2 ^ 192 := by
    calc (n : ℚ) = ((⌊p * 2 ^ 192⌋ : ℤ) : ℚ) := by exact_mod_cast hcast
    _ ≤ p * 2 ^ 192 := Int.floor_le _
  have hlt : p * 2 ^ 192 < (n : ℚ) + 1 := by
    calc p * 2 ^ 192 < ((⌊p * 2 ^ 192⌋ : ℤ) : ℚ) + 1 := Int.lt_floor_add_one _
    _ = (n : ℚ) + 1 := by rw [← hcast]; norm_num
  have hsqle : ((Nat.sqrt n : ℚ)) ^ 2 ≤ p * 2 ^ 192 := by
    calc ((Nat.sqrt n : ℚ)) ^ 2 = ((Nat.sqrt n ^ 2 : ℕ) : ℚ) := by push_cast; ring
    _ ≤ (n : ℚ) := by exact_mod_cast Nat.sqrt_le' n
    _ ≤ p * 2 ^ 192 := hnle
  have hsqgt : p * 2 ^ 192 < ((Nat.sqrt n : ℚ) + 1) ^ 2 := by
    calc p * 2 ^ 192 < (n : ℚ) + 1 := hlt
    _ ≤ ((Nat.sqrt n : ℚ) + 1) ^ 2 := by
        have := Nat.succ_le_succ_sqrt' n
        calc (n : ℚ) + 1 = (((n + 1 : ℕ)) : ℚ) := by push_cast; ring
        _ ≤ (((Nat.sqrt n + 1) ^ 2 : ℕ) : ℚ) := by exact_mod_cast this
        _ = ((Nat.sqrt n : ℚ) + 1) ^ 2 := by push_cast; ring
  constructor
  · unfold sqrtPriceX96ToPrice
    rw [div_le_iff₀ h2]
    exact hsqle
  · unfold sqrtPriceUlp sqrtPriceX96ToPrice
    have hplt : p < ((Nat.sqrt n : ℚ) + 1) ^ 2 / 2 ^ 192 := by
      rw [lt_div_iff₀ h2]
      exact hsqgt
    have : p - (Nat.sqrt n : ℚ) ^ 2 / 2 ^ 192 <
        ((Nat.sqrt n : ℚ) + 1) ^ 2 / 2 ^ 192 - (Nat.sqrt n : ℚ) ^ 2 / 2 ^ 192 :=
      sub_lt_sub_right hplt _
    calc p - ((Nat.sqrt n : ℕ) : ℚ) ^ 2 / 2 ^ 192
        < ((Nat.sqrt n : ℚ) + 1) ^ 2 / 2 ^ 192 - (Nat.sqrt n : ℚ) ^ 2 / 2 ^ 192 := this
    _ = (((Nat.sqrt n + 1 : ℕ)) : ℚ) ^ 2 / 2 ^ 192 - ((Nat.sqrt n : ℕ) : ℚ) ^ 2 / 2 ^ 192 := by
        push_cast
        ring

/-- C4 witness: at the concrete price one, the sqrt representation is two
to the 96, and the round trip lands exactly on one, within one unit of the
representable precision. -/
theorem C4_priceRoundTrip_witness :
    (0 : ℚ) < 1
    ∧ priceToSqrtPriceX96 1 = .ok (2 ^ 96)
    ∧ sqrtPriceX96ToPrice (2 ^ 96) ≤ 1
    ∧ 1 - sqrtPriceX96ToPrice (2 ^ 96) < sqrtPriceUlp (2 ^ 96) := by
  have hps : priceToSqrtPriceX96 1 = .ok (2 ^ 96) := by
    unfold priceToSqrtPriceX96
    rw [if_neg (by norm_num)]
    have h1 : ⌊(1 : ℚ) * 2 ^ 192⌋ = ((2 ^ 192 : ℕ) : ℤ) := by
      rw [one_mul]
      norm_num
    rw [h1, Int.toNat_natCast]
    have h2 : (2 ^ 192 : ℕ) = (2 ^ 96) ^ 2 := by norm_num
    rw [h2, Nat.sqrt_eq']
  have h := C4_priceRoundTrip 1 (2 ^ 96) (by norm_num) hps
  exact ⟨by norm_num, hps, h.1, h.2⟩
